import Mathlib

/-
Verification development for the bootstrap layer of the ClickHouse
command-line client, shallowly embedded from:
  programs/client/Client.cpp
  src/Client/ConnectionParameters.cpp
Strings are modelled as Lean `String`; machine integers as `Nat`/`Int`
(with explicit `% 256` where the C++ truncates); configuration reads
(`Poco::Util::AbstractConfiguration` getters) as typed optional fields or
a string-keyed map; exceptions as `Except`.
-/

namespace ClickHouseClient

/-! ### String helpers (character-list recursions, kernel-reducible) -/

/-- Prefix test on character lists (mirrors `std::string_view::starts_with`). -/
def leadsWith : List Char → List Char → Bool
  | [], _ => true
  | _ :: _, [] => false
  | p :: ps, c :: cs => p == c && leadsWith ps cs

/-- Substring test (mirrors `std::string::contains`). -/
def holdsSub (pat : List Char) : List Char → Bool
  | [] => pat.isEmpty
  | c :: cs => leadsWith pat (c :: cs) || holdsSub pat cs

/-- `needle` occurs as a substring of `s` (mirrors `String::contains`). -/
def strContainsStr (s needle : String) : Bool :=
  holdsSub needle.toList s.toList

/-- Suffix test (mirrors `std::string::ends_with`). -/
def trailsWith (s suf : String) : Bool :=
  leadsWith suf.toList.reverse s.toList.reverse

/-! ### Error codes

`DB::ErrorCodes` referenced by the client bootstrap (Client.cpp:56-65,
ConnectionParameters.cpp:18-22).  `other` carries any further numeric
server/client error code. -/

inductive ClientError where
  | badArguments
  | supportDisabled
  | noElementsInConfig
  | authenticationFailed
  | requiredPassword
  | networkError
  | other (code : Int)
deriving DecidableEq, Repr

/-- Client.cpp:498: the two error codes that abort the failover loop
(`AUTHENTICATION_FAILED`, `REQUIRED_PASSWORD`). -/
def isFatalAuth : ClientError → Bool
  | .authenticationFailed => true
  | .requiredPassword => true
  | _ => false

/-! ### Client configuration

Typed view of the configuration keys the embedded code reads.  A `none` /
`false` field models an absent key (the Poco getters' default).  Keys
irrelevant to the bootstrap slice (timeouts, formats, ...) are elided. -/

structure ClientConfig where
  secure : Bool := false
  noSecure : Bool := false
  host : Option String := none
  port : Option Nat := none
  tcpPort : Option Nat := none
  tcpPortSecure : Option Nat := none
  user : Option String := none
  password : Option String := none
  askPassword : Bool := false
  jwt : Option String := none
  sshKeyFile : Option String := none
  sshKeyPassphrase : Option String := none
  quotaKey : Option String := none
  bindHost : Option String := none
  prompt : Option String := none
  promptByDisplayName : Option (List (String × String)) := none
deriving Repr

/-! ### Security and port resolution (ConnectionParameters.cpp) -/

/-- Modelled from the spec: the built-in plain TCP port
(`DBMS_DEFAULT_PORT`, defined in Core/Defines.h which is not under src/). -/
def DBMS_DEFAULT_PORT : Nat := 9000

/-- Modelled from the spec: the well-known secure TCP port
(`DBMS_DEFAULT_SECURE_PORT`, defined in Core/Defines.h which is not under
src/). -/
def DBMS_DEFAULT_SECURE_PORT : Nat := 9440

/-- ConnectionParameters.cpp:27-43.  The anonymous-namespace helper; the
`connection_port` parameter defaults to `none` at both call sites in this
translation unit. -/
def enableSecureConnection (config : ClientConfig) (connection_host : String)
    (connection_port : Option Nat := none) : Bool :=
  if config.secure then true
  else if config.noSecure then false
  else if trailsWith connection_host ".clickhouse.cloud"
          || trailsWith connection_host ".clickhouse-staging.com" then true
  else if connection_port = some DBMS_DEFAULT_SECURE_PORT then true
  else false

/-- ConnectionParameters.cpp:175-182 (`ConnectionParameters::getPortFromConfig`). -/
def getPortFromConfig (config : ClientConfig) (connection_host : String) : Nat :=
  let is_secure := enableSecureConnection config connection_host
  config.port.getD
    ((if is_secure then config.tcpPortSecure else config.tcpPort).getD
      (if is_secure then DBMS_DEFAULT_SECURE_PORT else DBMS_DEFAULT_PORT))

inductive Secure where
  | Disable
  | Enable
deriving DecidableEq, Repr

/-- ConnectionParameters.cpp:71: `security` is computed from the config and
host only; no port is passed to `enableSecureConnection`. -/
def connectionSecurity (config : ClientConfig) (host : String) : Secure :=
  if enableSecureConnection config host then Secure.Enable else Secure.Disable

/-! ### ConnectionParameters construction (ConnectionParameters.cpp:63-167)

Credential fields mirror the C++ members: `password` and `jwt` are strings
defaulting to empty, `sshPrivateKey` models the `SSHKey` member as the
(file, passphrase) pair it was built from (`none` = no key set).
Compression needs a DNS resolution of the host (an external collaborator)
and no claim touches it, so the field is elided.  The build is assumed to
have JWT and SSH support enabled (`USE_JWT_CPP && USE_SSL`, `USE_SSH`).
The two blocking terminal reads (`readpassphrase`) are injected as the
`promptedPassword` / `promptedSshPassphrase` arguments, and the external
`SSHKeyFactory::makePrivateKeyFromFile(...).isPrivate()` check as
`sshKeyValid`. -/

structure ConnectionParameters where
  host : String
  port : Nat
  security : Secure
  bind_host : String
  user : String
  password : String
  jwt : String
  sshPrivateKey : Option (String × String)
  default_database : String
  quota_key : String
deriving DecidableEq, Repr

/-- ConnectionParameters.cpp:124-125 / Client.cpp:1110-1112: the sentinel a
bare `--password` is rewritten to (`ASK_PASSWORD`, the string `"\n"`). -/
def ASK_PASSWORD : String := "\n"

/-- The credential if/else chain of ConnectionParameters.cpp:78-135, as the
triple `(password, jwt, ssh_private_key)` of the C++ members it assigns
(every member not assigned by the taken branch keeps its empty default). -/
def resolveCredential (config : ClientConfig)
    (promptedPassword promptedSshPassphrase : String) (sshKeyValid : Bool) :
    Except ClientError (String × String × Option (String × String)) :=
  match config.jwt with
  | some j => Except.ok ("", j, none)
  | none =>
    match config.sshKeyFile with
    | some filename =>
      let passphrase := config.sshKeyPassphrase.getD promptedSshPassphrase
      if sshKeyValid then
        Except.ok ("", "", some (filename, passphrase))
      else
        Except.error ClientError.badArguments
    | none =>
      if config.askPassword then
        if config.password.isSome then
          Except.error ClientError.badArguments
        else
          Except.ok (promptedPassword, "", none)
      else
        let pw := config.password.getD ""
        if pw = ASK_PASSWORD then
          Except.ok (promptedPassword, "", none)
        else
          Except.ok (pw, "", none)

def mkConnectionParameters (config : ClientConfig) (host_ database : String)
    (port_ : Option Nat) (promptedPassword promptedSshPassphrase : String)
    (sshKeyValid : Bool) : Except ClientError ConnectionParameters :=
  (resolveCredential config promptedPassword promptedSshPassphrase sshKeyValid).map
    (fun cred =>
      { host := host_
        port := port_.getD (getPortFromConfig config host_)
        security := connectionSecurity config host_
        bind_host := config.bindHost.getD ""
        user := config.user.getD "default"
        password := cred.1
        jwt := cred.2.1
        sshPrivateKey := cred.2.2
        default_database := database
        quota_key := config.quotaKey.getD "" })

/-- How many of the three credential mechanisms are populated in a
constructed `ConnectionParameters`: a non-empty `jwt`, a set SSH key, or —
when neither of those was selected — the password mechanism (whose value
may legitimately be the empty password). -/
def credCount (cp : ConnectionParameters) : Nat :=
  (if cp.jwt ≠ "" then 1 else 0) + (if cp.sshPrivateKey.isSome then 1 else 0)
    + (if cp.jwt = "" ∧ cp.sshPrivateKey = none then 1 else 0)

/-- Client.cpp:826-832: the `--jwt` block of `Client::processOptions`.
`userExplicit` models `!options["user"].defaulted()`. -/
def processJwtOption (userExplicit : Bool) (jwtOpt : Option String)
    (config : ClientConfig) : Except ClientError ClientConfig :=
  match jwtOpt with
  | none => Except.ok config
  | some j =>
    if userExplicit then Except.error ClientError.badArguments
    else Except.ok { config with jwt := some j, user := some "" }

/-! ### Host list and the failover loop (Client.cpp:441-512) -/

structure HostAndPort where
  host : String
  port : Option Nat
deriving DecidableEq, Repr

/-- Client.cpp:448-453: when `hosts_and_ports` is empty, a single candidate
is synthesised from the configuration before the failover loop. -/
def synthesizeHostsAndPorts (config : ClientConfig) (hosts_and_ports : List HostAndPort) :
    List HostAndPort :=
  if hosts_and_ports.isEmpty then
    let host := config.host.getD "localhost"
    [{ host := host, port := some (getPortFromConfig config host) }]
  else
    hosts_and_ports

/-- Client.cpp:455-512: the failover loop over per-host attempt outcomes.
An attempt is everything inside the `try` (building `ConnectionParameters`,
opening the connection, fetching the server version); the exception it
raises, if any, is the `Except.error` payload.  A fatal auth error is
rethrown at once; any other error is rethrown only on the last candidate,
otherwise the loop advances.  `Except.ok none` can arise only from an empty
attempt list (the C++ loop body never runs then). -/
def connectLoop {α : Type} : List (Except ClientError α) → Except ClientError (Option α)
  | [] => Except.ok none
  | attempt :: rest =>
    match attempt with
    | Except.ok conn => Except.ok (some conn)
    | Except.error e =>
      if isFatalAuth e then Except.error e
      else if rest.isEmpty then Except.error e
      else connectLoop rest

/-- An attempt outcome that fails with a recoverable (non-auth) error. -/
def isRecoverableFailure {α : Type} : Except ClientError α → Bool
  | Except.ok _ => false
  | Except.error e => !isFatalAuth e

/-- Client.cpp:371-385: the one-shot password retry around `connect()` in
`Client::main`.  `attempt` is `connect()` as a function of the configuration
(the retry mutates `ask-password` before calling it again). -/
def mainConnectFlow {α : Type} (is_interactive : Bool) (config : ClientConfig)
    (attempt : ClientConfig → Except ClientError α) : Except ClientError α :=
  match attempt config with
  | Except.ok conn => Except.ok conn
  | Except.error e =>
    if (!isFatalAuth e) || config.password.isSome || config.askPassword
        || !is_interactive then
      Except.error e
    else
      attempt { config with askPassword := true }

/-! ### Argument tokenizer: host/port pairing (Client.cpp:957-1122)

Only the `--host`/`--port` scan state machine is modelled; a token is an
already-classified host or port argument (the surrounding classification —
externals, `--param_`, `--password`, pass-through — is branch dispatch on
the argument text).  An emitted group `(h?, p?)` stands for the argument
group pushed onto `hosts_and_ports_arguments`. -/

inductive HPTok where
  | host (value : String)
  | port (value : String)
deriving DecidableEq, Repr

/-- The left-to-right scan of Client.cpp:1043-1102 with the pending
`prev_host_arg` / `prev_port_arg` state, plus the end-of-input flush of
Client.cpp:1118-1121 (pending host first, then pending port).  Mirroring
the source, pairing a new host with a pending port leaves the (necessarily
absent, from the initial state) pending host untouched, and symmetrically. -/
def hpScan : List HPTok → Option String → Option String → List (Option String × Option String)
  | [], prev_host, prev_port =>
    (match prev_host with
     | some h => [(some h, none)]
     | none => []) ++
    (match prev_port with
     | some p => [(none, some p)]
     | none => [])
  | HPTok.host h :: rest, prev_host, prev_port =>
    match prev_port with
    | some p => (some h, some p) :: hpScan rest prev_host none
    | none =>
      match prev_host with
      | some h0 => (some h0, none) :: hpScan rest (some h) none
      | none => hpScan rest (some h) none
  | HPTok.port p :: rest, prev_host, prev_port =>
    match prev_host with
    | some h => (some h, some p) :: hpScan rest none prev_port
    | none =>
      match prev_port with
      | some p0 => (none, some p0) :: hpScan rest none (some p)
      | none => hpScan rest none (some p)

/-- Number of host/port tokens held in one emitted group. -/
def groupTokens (g : Option String × Option String) : Nat :=
  (if g.1.isSome then 1 else 0) + (if g.2.isSome then 1 else 0)

/-- Number of tokens in a scan output. -/
def scanTokens : List (Option String × Option String) → Nat
  | [] => 0
  | g :: gs => groupTokens g + scanTokens gs

/-- Number of tokens held in a pending slot. -/
def pendingTokens (o : Option String) : Nat :=
  if o.isSome then 1 else 0

/-! ### Connection profiles (Client.cpp:139-212)

The mutable `Poco` layered configuration is modelled as a string-keyed map
`CfgMap`; `setString`/`setInt`/`setBool` become `cfgSet` (integers and
booleans rendered as strings).  A `connections_credentials` block is a
`ConnProfile` record of optional entries. -/

def CfgMap : Type := String → Option String

/-- `config.set*(key, value)`. -/
def cfgSet (c : CfgMap) (key value : String) : CfgMap :=
  fun k => if k = key then some value else c k

structure ConnProfile where
  name : String
  hostname : Option String := none
  port : Option Nat := none
  secure : Option Bool := none
  user : Option String := none
  password : Option String := none
  database : Option String := none
  historyFile : Option String := none
  historyMaxEntries : Option Nat := none
  acceptInvalidCert : Option Bool := none
  prompt : Option String := none

/-- Client.cpp:195-197: `~`-expansion of a profile `history_file` value. -/
def tildeExpand (home_path value : String) : String :=
  if value.startsWith "~" && !home_path.isEmpty then
    home_path ++ "/" ++ value.drop 1
  else
    value

/-- The sequence of conditional `config.set*` calls a matching profile
performs (Client.cpp:170-207), in source order.  A `none` value is an entry
absent from the profile: no write happens.  Note that `host` is written
unconditionally (to the profile `hostname`, or the profile `name` when the
`hostname` entry is absent), and that a present `history_max_entries` entry
writes the member `history_max_entries` (the default), not the profile
value (Client.cpp:200-203). -/
def profileUpdates (home_path : String) (history_max_entries : Nat)
    (p : ConnProfile) : List (String × Option String) :=
  [("host", some (p.hostname.getD p.name)),
   ("port", p.port.map toString),
   ("secure", if p.secure = some true then some "true" else none),
   ("no-secure", if p.secure = some false then some "true" else none),
   ("user", p.user),
   ("password", p.password),
   ("database", p.database),
   ("history_file", p.historyFile.map (tildeExpand home_path)),
   ("history_max_entries", p.historyMaxEntries.map (fun _ => toString history_max_entries)),
   ("accept-invalid-certificate", p.acceptInvalidCert.map (fun b => if b then "true" else "false")),
   ("prompt", p.prompt)]

/-- Apply a list of optional key writes left to right. -/
def applyUpdates : CfgMap → List (String × Option String) → CfgMap
  | c, [] => c
  | c, (_, none) :: rest => applyUpdates c rest
  | c, (key, some v) :: rest => applyUpdates (cfgSet c key v) rest

/-- The last effective write to `k` in an update list (later writes win; a
`none` entry is a no-op). -/
def lastUpdate : List (String × Option String) → String → Option String
  | [], _ => none
  | (key, val) :: rest, k =>
    match lastUpdate rest k with
    | some v => some v
    | none => if key = k then val else none

/-- Overlay one matching profile onto the configuration. -/
def applyProfile (home_path : String) (history_max_entries : Nat)
    (c : CfgMap) (p : ConnProfile) : CfgMap :=
  applyUpdates c (profileUpdates home_path history_max_entries p)

/-- Client.cpp:141-156: the profile name to look for. -/
def resolvedConnection (c : CfgMap) (hosts_and_ports : List HostAndPort)
    (connection_name : String) : String :=
  if connection_name ≠ "" then connection_name
  else
    match hosts_and_ports with
    | h :: _ => h.host
    | [] => (c "host").getD "localhost"

/-- Client.cpp:139-212 (`Client::parseConnectionsCredentials`): every profile
whose `name` equals the resolved target is overlaid, in order; an explicit
selector with no match is `NO_ELEMENTS_IN_CONFIG`. -/
def parseConnectionsCredentials (profiles : List ConnProfile) (home_path : String)
    (history_max_entries : Nat) (c : CfgMap) (connection_name : String)
    (hosts_and_ports : List HostAndPort) : Except ClientError CfgMap :=
  let connection := resolvedConnection c hosts_and_ports connection_name
  let matched := profiles.filter (fun p => p.name == connection)
  if connection_name ≠ "" ∧ matched.isEmpty then
    Except.error ClientError.noElementsInConfig
  else
    Except.ok (matched.foldl (applyProfile home_path history_max_entries) c)

/-- The configuration keys a matching profile may write. -/
def profileTouchedKeys : List String :=
  ["host", "port", "secure", "no-secure", "user", "password", "database",
   "history_file", "history_max_entries", "accept-invalid-certificate", "prompt"]

/-! ### Environment-variable overrides (Client.cpp:319-325, 934-944)

The layered configuration seen by `config().has(key)` holds the CLI value
(written by `processOptions`, highest layer) above the config-file value
(added in `initialize`).  The environment variable is consulted only when
the key is absent from both. -/

/-- What `config().getString(key)` yields from the CLI and config-file
layers alone. -/
def layeredGet (cli cfgfile : Option String) : Option String :=
  match cli with
  | some v => some v
  | none => cfgfile

/-- Client.cpp:319-321: `CLICKHOUSE_USER` is written only when the layered
configuration has no `user`; `ConnectionParameters` then reads
`getString("user", "default")` (ConnectionParameters.cpp:76). -/
def resolveUser (cli cfgfile env : Option String) : String :=
  (match layeredGet cli cfgfile with
   | some v => some v
   | none => env).getD "default"

/-- Client.cpp:323-325: `CLICKHOUSE_PASSWORD`, same pattern. -/
def resolvePassword (cli cfgfile env : Option String) : Option String :=
  match layeredGet cli cfgfile with
  | some v => some v
  | none => env

/-- Client.cpp:934-944: history file path; `cfg` is the layered
`history_file` value (CLI/profile/config file), `env` is
`CLICKHOUSE_HISTORY_FILE`. -/
def resolveHistoryFile (cfg env : Option String) (home_path : String) : String :=
  match cfg with
  | some v => v
  | none =>
    match env with
    | some v => v
    | none =>
      if !home_path.isEmpty then home_path ++ "/.clickhouse-client-history" else ""

/-! ### Prompt composition (Client.cpp:575-620) -/

/-- First table entry with the given key (`config.has` / `getRawString` on a
`prompt_by_server_display_name` child). -/
def lookupVal (tbl : List (String × String)) (key : String) : Option String :=
  (tbl.find? (fun kv => kv.1 == key)).map (fun kv => kv.2)

/-- Client.cpp:589: a non-`default` key occurring as a substring of the
server display name. -/
def matchingKey (server_display_name : String) (kv : String × String) : Bool :=
  kv.1 != "default" && strContainsStr server_display_name kv.1

/-- Client.cpp:578-599: prompt template selection.  The `prompt` member
starts out empty, so a table with no `default` entry and no matching key
leaves it `""`. -/
def choosePromptTemplate (config : ClientConfig) (server_display_name : String) : String :=
  match config.prompt with
  | some p => p
  | none =>
    match config.promptByDisplayName with
    | some tbl =>
      let fallback :=
        match lookupVal tbl "default" with
        | some d => d
        | none => ""
      match tbl.find? (matchingKey server_display_name) with
      | some kv => kv.2
      | none => fallback
    | none => "{display_name}"

/-- Modelled from the spec: `readEscapedString` (src/IO/ReadHelpers, not
under src/) unescapes backslash escape sequences in the template; a
malformed or unknown escape is kept as literal text. -/
def unescapePrompt : List Char → List Char
  | [] => []
  | '\\' :: [] => ['\\']
  | '\\' :: c :: cs =>
    (match c with
     | 'n' => ['\n']
     | 't' => ['\t']
     | 'r' => ['\r']
     | '\\' => ['\\']
     | '0' => [Char.ofNat 0]
     | 'a' => [Char.ofNat 7]
     | 'b' => [Char.ofNat 8]
     | 'f' => [Char.ofNat 12]
     | 'v' => [Char.ofNat 11]
     | 'e' => [Char.ofNat 27]
     | other => ['\\', other]) ++ unescapePrompt cs
  | c :: cs => c :: unescapePrompt cs

/-- `boost::replace_all`: replace every non-overlapping occurrence of `pat`
left to right, never rescanning the replacement.  The fuel argument (one
unit per consumed character) only makes the recursion structural. -/
def replaceSubFuel (pat repl : List Char) : Nat → List Char → List Char
  | 0, s => s
  | _, [] => []
  | fuel + 1, c :: cs =>
    if pat ≠ [] ∧ leadsWith pat (c :: cs) then
      repl ++ replaceSubFuel pat repl fuel (List.drop pat.length (c :: cs))
    else
      c :: replaceSubFuel pat repl fuel cs

def replaceAllStr (s pat repl : String) : String :=
  String.mk (replaceSubFuel pat.toList repl.toList s.toList.length s.toList)

/-- Client.cpp:601-618: unescape the chosen template, then substitute the
four `{name}` placeholders.  The substitution map is a `std::map`, iterated
in lexicographic key order: `display_name`, `host`, `port`, `user`.  (The
decorative `appendSmileyIfNeeded` suffix of line 620 is outside this slice.) -/
def composePrompt (config : ClientConfig) (server_display_name host : String)
    (port : Nat) (user : String) : String :=
  let template := choosePromptTemplate config server_display_name
  let unescaped := String.mk (unescapePrompt template.toList)
  let s1 := replaceAllStr unescaped "{display_name}" server_display_name
  let s2 := replaceAllStr s1 "{host}" host
  let s3 := replaceAllStr s2 "{port}" (toString port)
  replaceAllStr s3 "{user}" user

/-! ### Exit codes (Client.cpp:427-438, 1130-1158) -/

/-- `static_cast<UInt8>` of a C++ `int`: reduction modulo 256 (Lean's `Int`
`%` by a positive literal already yields the representative in `[0, 256)`). -/
def toUInt8Cast (code : Int) : Nat :=
  (code % 256).toNat

/-- Client.cpp:427-433: the `catch (Exception & e)` of `Client::main`:
`return static_cast<UInt8>(e.code()) ? e.code() : -1`. -/
def clientMainCatch (code : Int) : Int :=
  if toUInt8Cast code ≠ 0 then code else -1

/-- Client.cpp:1141-1157: the catch blocks of `mainEntryClickHouseClient`:
`return static_cast<UInt8>(code) ? code : 1`. -/
def mainEntryCatch (code : Int) : Int :=
  if toUInt8Cast code ≠ 0 then code else 1

/-- The process exit status the OS derives from a `main` return value
(low eight bits). -/
def processExitStatus (ret : Int) : Nat :=
  (ret % 256).toNat

/-! ### Concrete fixtures used by counterexamples and witnesses -/

/-- A `connect()` that fails with `AUTHENTICATION_FAILED` until
`ask-password` is switched on. -/
def retryingAttempt : ClientConfig → Except ClientError Nat :=
  fun c => if c.askPassword then Except.ok 7 else Except.error ClientError.authenticationFailed

/-- A base configuration whose only key is `host = bar`. -/
def hostBarCfg : CfgMap :=
  fun k => if k = "host" then some "bar" else none

/-- A connection profile named `foo` with no other entry. -/
def bareFooProfile : ConnProfile :=
  { name := "foo" }

/-- A connection profile named `foo` whose only entry is `user = alice`. -/
def aliceFooProfile : ConnProfile :=
  { name := "foo", user := some "alice" }

/-- A `prompt_by_server_display_name` table with a single non-`default`
key and no `default` entry. -/
def prodOnlyPromptCfg : ClientConfig :=
  { promptByDisplayName := some [("prod", "PROD")] }

/-- An explicit `{user}@{host}` prompt. -/
def userAtHostPromptCfg : ClientConfig :=
  { prompt := some "{user}@{host}" }

/-- A configuration supplying a JWT alongside an SSH key file and a
password: the JWT must win. -/
def jwtCfgW : ClientConfig :=
  { jwt := some "tok", sshKeyFile := some "id_rsa", password := some "pw" }

/-- The `ConnectionParameters` the JWT configuration constructs. -/
def cpW : ConnectionParameters :=
  { host := "h", port := DBMS_DEFAULT_PORT, security := Secure.Disable,
    bind_host := "", user := "default", password := "", jwt := "tok",
    sshPrivateKey := none, default_database := "db", quota_key := "" }

/-! ## Helper lemmas -/

/-- A run of recoverably-failing attempts followed by at least one more
candidate only advances the loop. -/
lemma connectLoop_skip_recoverable {α : Type} (pre : List (Except ClientError α))
    (hpre : ∀ a ∈ pre, isRecoverableFailure a = true)
    (l : List (Except ClientError α)) (hl : l ≠ []) :
    connectLoop (pre ++ l) = connectLoop l := by
  induction pre with
  | nil => rfl
  | cons a pre ih =>
    have ha := hpre a (List.mem_cons_self a pre)
    obtain ⟨e, rfl⟩ : ∃ e, a = Except.error e := by
      cases a with
      | ok v => simp [isRecoverableFailure] at ha
      | error e => exact ⟨e, rfl⟩
    have hfa : isFatalAuth e = false := by
      simpa [isRecoverableFailure] using ha
    have hne : (pre ++ l).isEmpty = false := by
      cases pre <;> simp_all
    rw [List.cons_append, connectLoop]
    simp [hfa, hne, ih (fun a h => hpre a (List.mem_cons_of_mem _ h))]

lemma cfgSet_ne (c : CfgMap) (key v k : String) (h : k ≠ key) :
    cfgSet c key v k = c k :=
  if_neg h

/-- Updates whose keys all differ from `k` leave `k` unchanged. -/
lemma applyUpdates_ne (us : List (String × Option String)) (k : String)
    (h : ∀ u ∈ us, u.1 ≠ k) (c : CfgMap) :
    applyUpdates c us k = c k := by
  induction us generalizing c with
  | nil => rfl
  | cons u rest ih =>
    obtain ⟨key, val⟩ := u
    have hk : key ≠ k := h (key, val) (List.mem_cons_self _ rest)
    have hrest := fun u hu => h u (List.mem_cons_of_mem _ hu)
    cases val with
    | none => exact ih hrest c
    | some v =>
      rw [applyUpdates, ih hrest]
      exact cfgSet_ne c key v k (Ne.symm hk)

/-- Reading a key after a batch of updates sees the last effective write,
falling back to the original map. -/
lemma applyUpdates_apply (us : List (String × Option String)) (k : String) (c : CfgMap) :
    applyUpdates c us k
      = match lastUpdate us k with
        | some v => some v
        | none => c k := by
  induction us generalizing c with
  | nil => rfl
  | cons u rest ih =>
    obtain ⟨key, val⟩ := u
    cases val with
    | none =>
      rw [applyUpdates, ih]
      cases h : lastUpdate rest k <;> simp [lastUpdate, h]
    | some v =>
      rw [applyUpdates, ih]
      cases h : lastUpdate rest k with
      | some w => simp [lastUpdate, h]
      | none =>
        by_cases hk : key = k <;> simp [lastUpdate, h, cfgSet, hk]
        exact fun h2 => absurd h2.symm hk

/-! ## Claim theorems -/

/-- C1: in the failover loop, an attempt failing with an authentication or
required-password error aborts the whole bootstrap at once (whatever
candidates remain), any other failure advances to the next host when one
remains, a recoverable failure on the last host is surfaced as the fatal
error, and a successful attempt commits immediately. -/
theorem connect_failover_classification {α : Type}
    (pre rest : List (Except ClientError α)) (e : ClientError)
    (hpre : ∀ a ∈ pre, isRecoverableFailure a = true) :
    (isFatalAuth e = true →
      connectLoop (pre ++ Except.error e :: rest) = Except.error e)
    ∧ (isFatalAuth e = false → rest ≠ [] →
      connectLoop (pre ++ Except.error e :: rest) = connectLoop rest)
    ∧ (isFatalAuth e = false →
      connectLoop (pre ++ [Except.error e]) = Except.error e)
    ∧ (∀ (conn : α) (rest2 : List (Except ClientError α)),
      connectLoop (pre ++ Except.ok conn :: rest2) = Except.ok (some conn)) := by
  refine ⟨?_, ?_, ?_, ?_⟩
  · intro hf
    rw [connectLoop_skip_recoverable pre hpre _ (by simp)]
    simp [connectLoop, hf]
  · intro hf hrest
    rw [connectLoop_skip_recoverable pre hpre _ (by simp)]
    have : rest.isEmpty = false := by simp [hrest]
    simp [connectLoop, hf, this]
  · intro hf
    rw [connectLoop_skip_recoverable pre hpre _ (by simp)]
    simp [connectLoop, hf]
  · intro conn rest2
    rw [connectLoop_skip_recoverable pre hpre _ (by simp)]
    simp [connectLoop]

/-- C1 witness: hosts `[A, B, C]` where A fails with a network error and B
fails with an authentication failure: the loop aborts with the
authentication failure and C (which would succeed) is never committed. -/
theorem connect_failover_classification_witness :
    connectLoop [Except.error (ClientError.other 210),
        Except.error ClientError.authenticationFailed, Except.ok (0 : Nat)]
      = Except.error ClientError.authenticationFailed :=
  (@connect_failover_classification Nat [Except.error (ClientError.other 210)]
    [Except.ok 0] ClientError.authenticationFailed (by decide)).1 rfl

/-- C2: the one-shot password retry of `Client::main`: when the first
bootstrap fails with an authentication/required-password error, the session
is interactive and neither a password nor ask-password is configured,
exactly one further attempt is made with `ask-password` forced on and its
outcome (success or failure) is final; in every other situation the first
error is rethrown with no retry. -/
theorem password_retry_one_shot {α : Type} (is_interactive : Bool)
    (config : ClientConfig) (attempt : ClientConfig → Except ClientError α)
    (e : ClientError) (hfail : attempt config = Except.error e) :
    (isFatalAuth e = true → config.password = none → config.askPassword = false →
      is_interactive = true →
      mainConnectFlow is_interactive config attempt
        = attempt { config with askPassword := true })
    ∧ (isFatalAuth e = false ∨ config.password.isSome = true
        ∨ config.askPassword = true ∨ is_interactive = false →
      mainConnectFlow is_interactive config attempt = Except.error e) := by
  constructor
  · intro h1 h2 h3 h4
    simp [mainConnectFlow, hfail, h1, h2, h3, h4]
  · intro hcase
    rcases hcase with h | h | h | h <;> simp [mainConnectFlow, hfail, h]

/-- C2 witness: a first `AUTHENTICATION_FAILED` in an interactive session
with no password configured leads to exactly one retry with `ask-password`
on, which here succeeds. -/
theorem password_retry_one_shot_witness :
    mainConnectFlow true {} retryingAttempt = Except.ok 7 := by
  have h := password_retry_one_shot true {} retryingAttempt
    ClientError.authenticationFailed rfl
  exact (h.1 rfl rfl rfl rfl).trans rfl

/-- C3: the host/port pairing scan: the three specified input/output pairs,
and, for every token list and pending state, the scan emits every token
exactly once (pairing, emitting a displaced pending token alone, and
flushing a final pending token alone). -/
theorem tokenizer_host_port_pairing :
    hpScan [HPTok.host "h1", HPTok.port "p1", HPTok.host "h2"] none none
      = [(some "h1", some "p1"), (some "h2", none)]
    ∧ hpScan [HPTok.port "p1", HPTok.host "h1"] none none
      = [(some "h1", some "p1")]
    ∧ hpScan [HPTok.host "h1", HPTok.host "h2"] none none
      = [(some "h1", none), (some "h2", none)]
    ∧ ∀ (ts : List HPTok) (prev_host prev_port : Option String),
      scanTokens (hpScan ts prev_host prev_port)
        = ts.length + pendingTokens prev_host + pendingTokens prev_port := by
  refine ⟨by decide, by decide, by decide, ?_⟩
  intro ts
  induction ts with
  | nil =>
    intro ph pp
    cases ph <;> cases pp <;>
      simp [hpScan, scanTokens, groupTokens, pendingTokens]
  | cons t rest ih =>
    intro ph pp
    cases t with
    | host h =>
      cases pp with
      | some p =>
        have := ih ph none
        simp [hpScan, scanTokens, groupTokens, pendingTokens] at this ⊢
        omega
      | none =>
        cases ph with
        | some h0 =>
          have := ih (some h) none
          simp [hpScan, scanTokens, groupTokens, pendingTokens] at this ⊢
          omega
        | none =>
          have := ih (some h) none
          simp [hpScan, scanTokens, groupTokens, pendingTokens] at this ⊢
          omega
    | port p =>
      cases ph with
      | some h =>
        have := ih none pp
        simp [hpScan, scanTokens, groupTokens, pendingTokens] at this ⊢
        omega
      | none =>
        cases pp with
        | some p0 =>
          have := ih none (some p)
          simp [hpScan, scanTokens, groupTokens, pendingTokens] at this ⊢
          omega
        | none =>
          have := ih none (some p)
          simp [hpScan, scanTokens, groupTokens, pendingTokens] at this ⊢
          omega

/-- C4 counterexample: with no explicit flag and a non-cloud host, a
requested port equal to the well-known secure port still yields security
Disabled, because `ConnectionParameters` construction never passes the port
to `enableSecureConnection`; the claim says it would yield Enabled. -/
theorem security_port_rule_counterexample :
    (mkConnectionParameters {} "example.com" ""
        (some DBMS_DEFAULT_SECURE_PORT) "" "" true).map
      (fun cp => (cp.security, cp.port))
      = Except.ok (Secure.Disable, DBMS_DEFAULT_SECURE_PORT)
    ∧ ({} : ClientConfig).secure = false
    ∧ ({} : ClientConfig).noSecure = false
    ∧ (trailsWith "example.com" ".clickhouse.cloud"
        || trailsWith "example.com" ".clickhouse-staging.com") = false
    ∧ Secure.Disable ≠ Secure.Enable :=
  ⟨rfl, rfl, rfl, by decide, by decide⟩

/-- C4 (amended): the resolved security flag of a constructed
`ConnectionParameters` follows the first matching rule of: explicit secure
flag enables, explicit no-secure flag disables, a managed-cloud host suffix
enables, otherwise disabled — the requested-port rule of
`enableSecureConnection` exists but fires only when a port is passed in,
which the `ConnectionParameters` path never does. -/
theorem security_resolution_order (config : ClientConfig) (host database : String)
    (port_ : Option Nat) (promptedPassword promptedSshPassphrase : String)
    (sshKeyValid : Bool) :
    (∀ cp, mkConnectionParameters config host database port_
        promptedPassword promptedSshPassphrase sshKeyValid = Except.ok cp →
      cp.security = connectionSecurity config host)
    ∧ (config.secure = true → connectionSecurity config host = Secure.Enable)
    ∧ (config.secure = false → config.noSecure = true →
        connectionSecurity config host = Secure.Disable)
    ∧ (config.secure = false → config.noSecure = false →
        (trailsWith host ".clickhouse.cloud"
          || trailsWith host ".clickhouse-staging.com") = true →
        connectionSecurity config host = Secure.Enable)
    ∧ (config.secure = false → config.noSecure = false →
        (trailsWith host ".clickhouse.cloud"
          || trailsWith host ".clickhouse-staging.com") = false →
        connectionSecurity config host = Secure.Disable)
    ∧ (∀ p, config.secure = false → config.noSecure = false →
        (trailsWith host ".clickhouse.cloud"
          || trailsWith host ".clickhouse-staging.com") = false →
        enableSecureConnection config host (some p)
          = (p == DBMS_DEFAULT_SECURE_PORT)) := by
  refine ⟨?_, ?_, ?_, ?_, ?_, ?_⟩
  · intro cp h
    cases hx : resolveCredential config promptedPassword promptedSshPassphrase
        sshKeyValid with
    | error e =>
      rw [mkConnectionParameters, hx] at h
      simp [Except.map] at h
    | ok cred =>
      rw [mkConnectionParameters, hx] at h
      simp only [Except.map, Except.ok.injEq] at h
      subst h
      rfl
  · intro hs
    simp [connectionSecurity, enableSecureConnection, hs]
  · intro hs hn
    simp [connectionSecurity, enableSecureConnection, hs, hn]
  · intro hs hn hsuf
    simp [connectionSecurity, enableSecureConnection, hs, hn, hsuf]
  · intro hs hn hsuf
    simp [connectionSecurity, enableSecureConnection, hs, hn, hsuf]
  · intro p hs hn hsuf
    by_cases hp : p = DBMS_DEFAULT_SECURE_PORT <;>
      simp [enableSecureConnection, hs, hn, hsuf, hp]

/-- C4 witness: the amended rule order at concrete inputs — explicit
secure wins, no-secure overrides the cloud suffix, the cloud suffix enables
on its own, and the port rule does fire when a port is actually passed. -/
theorem security_resolution_order_witness :
    connectionSecurity { secure := true } "x" = Secure.Enable
    ∧ connectionSecurity { noSecure := true } "foo.clickhouse.cloud" = Secure.Disable
    ∧ connectionSecurity {} "foo.clickhouse.cloud" = Secure.Enable
    ∧ enableSecureConnection {} "x" (some DBMS_DEFAULT_SECURE_PORT)
        = (DBMS_DEFAULT_SECURE_PORT == DBMS_DEFAULT_SECURE_PORT) := by
  refine ⟨?_, ?_, ?_, ?_⟩
  · exact (security_resolution_order { secure := true } "x" "" none "" "" true).2.1 rfl
  · exact (security_resolution_order { noSecure := true } "foo.clickhouse.cloud"
      "" none "" "" true).2.2.1 rfl rfl
  · exact (security_resolution_order {} "foo.clickhouse.cloud"
      "" none "" "" true).2.2.2.1 rfl rfl (by decide)
  · exact (security_resolution_order {} "x" "" none "" "" true).2.2.2.2.2
      DBMS_DEFAULT_SECURE_PORT rfl rfl (by decide)

/-- C5: credential-mechanism selection is checked in the order JWT, then
SSH key file, then the password path; the selected mechanism is the only
one populated in the constructed `ConnectionParameters`; and supplying
`--jwt` together with an explicitly given user is rejected as a fatal
configuration conflict in option processing, before any connection. -/
theorem credential_mechanism_selection (config : ClientConfig)
    (host database : String) (port_ : Option Nat)
    (promptedPassword promptedSshPassphrase : String) (sshKeyValid : Bool) :
    (∀ j cp, config.jwt = some j →
      mkConnectionParameters config host database port_
          promptedPassword promptedSshPassphrase sshKeyValid = Except.ok cp →
      cp.jwt = j ∧ cp.sshPrivateKey = none ∧ cp.password = "")
    ∧ (∀ f cp, config.jwt = none → config.sshKeyFile = some f →
      mkConnectionParameters config host database port_
          promptedPassword promptedSshPassphrase sshKeyValid = Except.ok cp →
      cp.sshPrivateKey = some (f, config.sshKeyPassphrase.getD promptedSshPassphrase)
        ∧ cp.jwt = "" ∧ cp.password = "")
    ∧ (∀ cp, config.jwt = none → config.sshKeyFile = none →
      mkConnectionParameters config host database port_
          promptedPassword promptedSshPassphrase sshKeyValid = Except.ok cp →
      cp.jwt = "" ∧ cp.sshPrivateKey = none)
    ∧ (∀ cp, mkConnectionParameters config host database port_
          promptedPassword promptedSshPassphrase sshKeyValid = Except.ok cp →
      credCount cp = 1)
    ∧ (∀ j, processJwtOption true (some j) config
        = Except.error ClientError.badArguments) := by
  refine ⟨?_, ?_, ?_, ?_, ?_⟩
  · intro j cp hj h
    have hx : resolveCredential config promptedPassword promptedSshPassphrase
        sshKeyValid = Except.ok ("", j, none) := by
      simp [resolveCredential, hj]
    rw [mkConnectionParameters, hx] at h
    simp only [Except.map, Except.ok.injEq] at h
    subst h
    exact ⟨rfl, rfl, rfl⟩
  · intro f cp hj hf h
    rw [mkConnectionParameters] at h
    cases hx : resolveCredential config promptedPassword promptedSshPassphrase
        sshKeyValid with
    | error e =>
      rw [hx] at h
      simp [Except.map] at h
    | ok cred =>
      rw [hx] at h
      simp only [Except.map, Except.ok.injEq] at h
      subst h
      have hshape :
          cred = ("", "", some (f, config.sshKeyPassphrase.getD promptedSshPassphrase)) := by
        simp only [resolveCredential, hj, hf] at hx
        split at hx
        · exact (Except.ok.inj hx).symm
        · simp at hx
      rw [hshape]
      exact ⟨rfl, rfl, rfl⟩
  · intro cp hj hf h
    rw [mkConnectionParameters] at h
    cases hx : resolveCredential config promptedPassword promptedSshPassphrase
        sshKeyValid with
    | error e =>
      rw [hx] at h
      simp [Except.map] at h
    | ok cred =>
      rw [hx] at h
      simp only [Except.map, Except.ok.injEq] at h
      subst h
      have hshape : cred.2.1 = "" ∧ cred.2.2 = none := by
        simp only [resolveCredential, hj, hf] at hx
        split at hx
        · split at hx
          · simp at hx
          · obtain rfl := (Except.ok.inj hx).symm
            exact ⟨rfl, rfl⟩
        · split at hx
          · obtain rfl := (Except.ok.inj hx).symm
            exact ⟨rfl, rfl⟩
          · obtain rfl := (Except.ok.inj hx).symm
            exact ⟨rfl, rfl⟩
      exact hshape
  · intro cp h
    rw [mkConnectionParameters] at h
    cases hx : resolveCredential config promptedPassword promptedSshPassphrase
        sshKeyValid with
    | error e =>
      rw [hx] at h
      simp [Except.map] at h
    | ok cred =>
      rw [hx] at h
      simp only [Except.map, Except.ok.injEq] at h
      subst h
      simp only [resolveCredential] at hx
      split at hx
      · rename_i j _
        obtain rfl := (Except.ok.inj hx).symm
        rcases eq_or_ne j "" with rfl | hne
        · simp [credCount]
        · simp [credCount, hne]
      · split at hx
        · split at hx
          · obtain rfl := (Except.ok.inj hx).symm
            simp [credCount]
          · simp at hx
        · split at hx
          · split at hx
            · simp at hx
            · obtain rfl := (Except.ok.inj hx).symm
              simp [credCount]
          · split at hx
            · obtain rfl := (Except.ok.inj hx).symm
              simp [credCount]
            · obtain rfl := (Except.ok.inj hx).symm
              simp [credCount]
  · intro j
    rfl

/-- C5 witness: a configuration supplying JWT, an SSH key file and a
password at once selects the JWT, populates exactly one mechanism, and the
JWT/explicit-user combination is a fatal conflict. -/
theorem credential_mechanism_selection_witness :
    cpW.jwt = "tok" ∧ cpW.sshPrivateKey = none ∧ cpW.password = ""
    ∧ credCount cpW = 1
    ∧ processJwtOption true (some "tok") jwtCfgW
        = Except.error ClientError.badArguments := by
  have h := credential_mechanism_selection jwtCfgW "h" "db" none "" "" true
  obtain ⟨h1, h2, h3⟩ := h.1 "tok" cpW rfl rfl
  exact ⟨h1, h2, h3, h.2.2.2.1 cpW rfl, h.2.2.2.2 "tok"⟩

/-- Any fold of matching profiles leaves keys outside the touched set
unchanged. -/
lemma foldl_applyProfile_ne (ps : List ConnProfile) (home_path : String)
    (history_max_entries : Nat) (k : String) (hk : k ∉ profileTouchedKeys) :
    ∀ c : CfgMap, (ps.foldl (applyProfile home_path history_max_entries) c) k = c k := by
  induction ps with
  | nil => intro c; rfl
  | cons p rest ih =>
    intro c
    rw [List.foldl_cons, ih]
    apply applyUpdates_ne
    intro u hu
    simp only [profileTouchedKeys, List.mem_cons, List.not_mem_nil, or_false, not_or] at hk
    simp only [profileUpdates, List.mem_cons, List.not_mem_nil, or_false] at hu
    rcases hu with rfl | rfl | rfl | rfl | rfl | rfl | rfl | rfl | rfl | rfl | rfl <;>
      simp_all [eq_comm]

/-- C6 counterexample: a matching profile with no `hostname` entry still
overwrites the `host` key (with the profile name), contradicting the claim
that each listed field is overwritten only when present in the profile. -/
theorem profile_host_overwrite_counterexample :
    (parseConnectionsCredentials [bareFooProfile] "" 0 hostBarCfg "foo" []).map
        (fun m => m "host")
      = Except.ok (some "foo")
    ∧ hostBarCfg "host" = some "bar"
    ∧ bareFooProfile.hostname = none
    ∧ (some "foo" : Option String) ≠ some "bar" :=
  ⟨rfl, rfl, rfl, by decide⟩

/-- C6 (amended): profile substitution only ever writes the keys host,
port, secure/no-secure, user, password, database, history settings,
accept-invalid-certificate and prompt; for a matching profile the `host`
key is always written (to the profile hostname, or the profile name when
the hostname entry is absent) while every other listed field is written
only when the corresponding entry is present; all other configuration keys
are unchanged. -/
theorem profile_substitution_fields (profiles : List ConnProfile)
    (home_path : String) (history_max_entries : Nat) (c : CfgMap)
    (connection_name : String) (hosts : List HostAndPort) (c' : CfgMap)
    (h : parseConnectionsCredentials profiles home_path history_max_entries c
          connection_name hosts = Except.ok c') :
    (∀ k, k ∉ profileTouchedKeys → c' k = c k)
    ∧ (∀ p, profiles.filter
          (fun q => q.name == resolvedConnection c hosts connection_name) = [p] →
        c' "host" = some (p.hostname.getD p.name)
        ∧ (p.port = none → c' "port" = c "port")
        ∧ (∀ v, p.port = some v → c' "port" = some (toString v))
        ∧ (p.secure = none → c' "secure" = c "secure" ∧ c' "no-secure" = c "no-secure")
        ∧ (p.secure = some true → c' "secure" = some "true"
            ∧ c' "no-secure" = c "no-secure")
        ∧ (p.secure = some false → c' "no-secure" = some "true"
            ∧ c' "secure" = c "secure")
        ∧ (p.user = none → c' "user" = c "user")
        ∧ (∀ v, p.user = some v → c' "user" = some v)
        ∧ (p.password = none → c' "password" = c "password")
        ∧ (∀ v, p.password = some v → c' "password" = some v)
        ∧ (p.database = none → c' "database" = c "database")
        ∧ (∀ v, p.database = some v → c' "database" = some v)
        ∧ (p.historyFile = none → c' "history_file" = c "history_file")
        ∧ (∀ v, p.historyFile = some v →
            c' "history_file" = some (tildeExpand home_path v))
        ∧ (p.historyMaxEntries = none →
            c' "history_max_entries" = c "history_max_entries")
        ∧ (∀ n, p.historyMaxEntries = some n →
            c' "history_max_entries" = some (toString history_max_entries))
        ∧ (p.acceptInvalidCert = none →
            c' "accept-invalid-certificate" = c "accept-invalid-certificate")
        ∧ (∀ b, p.acceptInvalidCert = some b →
            c' "accept-invalid-certificate" = some (if b then "true" else "false"))
        ∧ (p.prompt = none → c' "prompt" = c "prompt")
        ∧ (∀ v, p.prompt = some v → c' "prompt" = some v)) := by
  have hc' : c' = (profiles.filter
      (fun q => q.name == resolvedConnection c hosts connection_name)).foldl
        (applyProfile home_path history_max_entries) c := by
    simp only [parseConnectionsCredentials] at h
    split at h
    · simp at h
    · exact (Except.ok.inj h).symm
  constructor
  · intro k hk
    rw [hc']
    exact foldl_applyProfile_ne _ home_path history_max_entries k hk c
  · intro p hp
    have hck : ∀ kk, c' kk
        = applyUpdates c (profileUpdates home_path history_max_entries p) kk := by
      intro kk
      rw [hc', hp]
      rfl
    refine ⟨?_, ?_, ?_, ?_, ?_, ?_, ?_, ?_, ?_, ?_, ?_, ?_, ?_, ?_, ?_, ?_, ?_, ?_, ?_, ?_⟩
    · rw [hck, applyUpdates_apply]
      simp [profileUpdates, lastUpdate]
    · intro hf
      rw [hck, applyUpdates_apply]
      simp [profileUpdates, lastUpdate, hf]
    · intro v hf
      rw [hck, applyUpdates_apply]
      simp [profileUpdates, lastUpdate, hf]
    · intro hf
      constructor <;> (rw [hck, applyUpdates_apply]; simp [profileUpdates, lastUpdate, hf])
    · intro hf
      constructor <;> (rw [hck, applyUpdates_apply]; simp [profileUpdates, lastUpdate, hf])
    · intro hf
      constructor <;> (rw [hck, applyUpdates_apply]; simp [profileUpdates, lastUpdate, hf])
    · intro hf
      rw [hck, applyUpdates_apply]
      simp [profileUpdates, lastUpdate, hf]
    · intro v hf
      rw [hck, applyUpdates_apply]
      simp [profileUpdates, lastUpdate, hf]
    · intro hf
      rw [hck, applyUpdates_apply]
      simp [profileUpdates, lastUpdate, hf]
    · intro v hf
      rw [hck, applyUpdates_apply]
      simp [profileUpdates, lastUpdate, hf]
    · intro hf
      rw [hck, applyUpdates_apply]
      simp [profileUpdates, lastUpdate, hf]
    · intro v hf
      rw [hck, applyUpdates_apply]
      simp [profileUpdates, lastUpdate, hf]
    · intro hf
      rw [hck, applyUpdates_apply]
      simp [profileUpdates, lastUpdate, hf]
    · intro v hf
      rw [hck, applyUpdates_apply]
      simp [profileUpdates, lastUpdate, hf]
    · intro hf
      rw [hck, applyUpdates_apply]
      simp [profileUpdates, lastUpdate, hf]
    · intro n hf
      rw [hck, applyUpdates_apply]
      simp [profileUpdates, lastUpdate, hf]
    · intro hf
      rw [hck, applyUpdates_apply]
      simp [profileUpdates, lastUpdate, hf]
    · intro b hf
      rw [hck, applyUpdates_apply]
      simp [profileUpdates, lastUpdate, hf]
    · intro hf
      rw [hck, applyUpdates_apply]
      simp [profileUpdates, lastUpdate, hf]
    · intro v hf
      rw [hck, applyUpdates_apply]
      simp [profileUpdates, lastUpdate, hf]

/-- C6 witness: overlaying the `foo` profile (whose only entry is
`user = alice`) writes `host` and `user`, and leaves an untouched key such
as `compression` unchanged. -/
theorem profile_substitution_fields_witness :
    applyProfile "" 5 hostBarCfg aliceFooProfile "user" = some "alice"
    ∧ applyProfile "" 5 hostBarCfg aliceFooProfile "host" = some "foo"
    ∧ applyProfile "" 5 hostBarCfg aliceFooProfile "compression"
        = hostBarCfg "compression" := by
  have h := profile_substitution_fields [aliceFooProfile] "" 5 hostBarCfg "foo" []
    (applyProfile "" 5 hostBarCfg aliceFooProfile) rfl
  obtain ⟨hframe, hfields⟩ := h
  have hf := hfields aliceFooProfile rfl
  exact ⟨hf.2.2.2.2.2.2.2.1 "alice" rfl, hf.1, hframe "compression" (by decide)⟩

/-- C7 counterexample: a user name set only in the config file beats the
environment variable — the resolved user is the config-file value, while
the claim says the environment variable takes precedence over a value that
comes only from the config file. -/
theorem env_precedence_counterexample :
    resolveUser none (some "filefan") (some "envuser") = "filefan"
    ∧ ("filefan" : String) ≠ "envuser" :=
  ⟨rfl, by decide⟩

/-- C7 (amended): for the user-name, password and history-file overrides,
an explicit CLI flag beats the environment variable, and the environment
variable is consulted only when the value is absent from both the CLI and
the config file — it overrides only the built-in defaults, while a
config-file value takes precedence over the environment. -/
theorem env_override_precedence (cli cfgfile env : Option String) :
    (∀ u, cli = some u → resolveUser cli cfgfile env = u)
    ∧ (∀ f, cli = none → cfgfile = some f → resolveUser cli cfgfile env = f)
    ∧ (∀ e, cli = none → cfgfile = none → env = some e → resolveUser cli cfgfile env = e)
    ∧ (cli = none → cfgfile = none → env = none → resolveUser cli cfgfile env = "default")
    ∧ (∀ u, cli = some u → resolvePassword cli cfgfile env = some u)
    ∧ (∀ f, cli = none → cfgfile = some f → resolvePassword cli cfgfile env = some f)
    ∧ (cli = none → cfgfile = none → resolvePassword cli cfgfile env = env)
    ∧ (∀ (home : String) (v : String), resolveHistoryFile (some v) env home = v)
    ∧ (∀ (home : String) (e : String), resolveHistoryFile none (some e) home = e) := by
  refine ⟨?_, ?_, ?_, ?_, ?_, ?_, ?_, ?_, ?_⟩
  · intro u hu
    simp [resolveUser, layeredGet, hu]
  · intro f hc hf
    simp [resolveUser, layeredGet, hc, hf]
  · intro e hc hf he
    simp [resolveUser, layeredGet, hc, hf, he]
  · intro hc hf he
    simp [resolveUser, layeredGet, hc, hf, he]
  · intro u hu
    simp [resolvePassword, layeredGet, hu]
  · intro f hc hf
    simp [resolvePassword, layeredGet, hc, hf]
  · intro hc hf
    simp [resolvePassword, layeredGet, hc, hf]
  · intro home v
    rfl
  · intro home e
    rfl

/-- C7 witness: the amended precedences at concrete values — CLI beats env,
env fills in when CLI and config file are both silent, and the history file
falls back from config to environment. -/
theorem env_override_precedence_witness :
    resolveUser (some "cliuser") (some "filefan") (some "envuser") = "cliuser"
    ∧ resolveUser none none (some "envuser") = "envuser"
    ∧ resolveUser none none none = "default"
    ∧ resolvePassword none (some "fpw") (some "epw") = some "fpw"
    ∧ resolveHistoryFile none (some "/tmp/h") "/home/u" = "/tmp/h" := by
  have h := env_override_precedence (some "cliuser") (some "filefan") (some "envuser")
  have h2 := env_override_precedence (none : Option String) none (some "envuser")
  have h3 := env_override_precedence (none : Option String) none none
  have h4 := env_override_precedence (none : Option String) (some "fpw") (some "epw")
  exact ⟨h.1 "cliuser" rfl, h2.2.2.1 "envuser" rfl rfl rfl, h3.2.2.2.1 rfl rfl rfl,
    h4.2.2.2.2.2.1 "fpw" rfl rfl, h4.2.2.2.2.2.2.2.2 "/home/u" "/tmp/h"⟩

/-- C8 counterexample: with no explicit prompt and a
`prompt_by_server_display_name` table that has neither a matching
non-default key nor a `default` entry, the chosen template is the empty
string, not the generic `\x7bdisplay_name\x7d` template the claim's
fallback chain would produce (which would render as the display name). -/
theorem prompt_fallback_counterexample :
    choosePromptTemplate prodOnlyPromptCfg "staging-env" = ""
    ∧ composePrompt prodOnlyPromptCfg "staging-env" "localhost" 9000 "default" = ""
    ∧ composePrompt { promptByDisplayName := none } "staging-env" "localhost" 9000 "default"
        = "staging-env"
    ∧ ("" : String) ≠ "staging-env" := by
  refine ⟨by decide, by decide, by decide, by decide⟩

/-- C8 (amended): the prompt template is chosen in the order: explicit
prompt config value; else, when the `prompt_by_server_display_name` table
is present, the first non-default key occurring as a substring of the
server display name, else the table's `default` entry, else the empty
prompt; the fixed generic template applies only when neither an explicit
prompt nor the table is configured.  The chosen template is unescaped and
has the four placeholders literally substituted, so `\x7buser\x7d@\x7bhost\x7d` with
user `default` and host `localhost` yields `default@localhost`. -/
theorem prompt_selection_order (config : ClientConfig) (display : String) :
    (∀ p, config.prompt = some p → choosePromptTemplate config display = p)
    ∧ (∀ tbl, config.prompt = none → config.promptByDisplayName = some tbl →
        (∀ kv, tbl.find? (matchingKey display) = some kv →
          choosePromptTemplate config display = kv.2)
        ∧ (∀ d, tbl.find? (matchingKey display) = none →
            lookupVal tbl "default" = some d →
            choosePromptTemplate config display = d)
        ∧ (tbl.find? (matchingKey display) = none →
            lookupVal tbl "default" = none →
            choosePromptTemplate config display = ""))
    ∧ (config.prompt = none → config.promptByDisplayName = none →
        choosePromptTemplate config display = "{display_name}")
    ∧ composePrompt userAtHostPromptCfg "any" "localhost" 9000 "default"
        = "default@localhost" := by
  refine ⟨?_, ?_, ?_, by decide⟩
  · intro p hp
    simp [choosePromptTemplate, hp]
  · intro tbl hp ht
    refine ⟨?_, ?_, ?_⟩
    · intro kv hkv
      simp [choosePromptTemplate, hp, ht, hkv]
    · intro d hkv hd
      simp [choosePromptTemplate, hp, ht, hkv, hd]
    · intro hkv hd
      simp [choosePromptTemplate, hp, ht, hkv, hd]
  · intro hp ht
    simp [choosePromptTemplate, hp, ht]

/-- C8 witness: the selection order at concrete inputs — a matching
non-default key wins over the `default` entry, and the `default` entry
applies when no key matches. -/
theorem prompt_selection_order_witness :
    choosePromptTemplate
        { promptByDisplayName := some [("default", "D"), ("prod", "P")] } "my-prod-server"
      = "P"
    ∧ choosePromptTemplate
        { promptByDisplayName := some [("default", "D"), ("prod", "P")] } "staging"
      = "D" := by
  have h1 := prompt_selection_order
    { promptByDisplayName := some [("default", "D"), ("prod", "P")] } "my-prod-server"
  have h2 := prompt_selection_order
    { promptByDisplayName := some [("default", "D"), ("prod", "P")] } "staging"
  exact ⟨(h1.2.1 [("default", "D"), ("prod", "P")] rfl rfl).1 ("prod", "P") (by decide),
    (h2.2.1 [("default", "D"), ("prod", "P")] rfl rfl).2.1 "D" (by decide) rfl⟩

/-- C9 counterexample: an error carrying the non-zero code 256 terminates
with the generic failure code (255, from returning -1), not with its own
numeric code clamped into the exit-code range — the claim reserves the
generic code for errors carrying no code. -/
theorem exit_code_counterexample :
    (256 : Int) ≠ 0
    ∧ toUInt8Cast 256 = 0
    ∧ clientMainCatch 256 = -1
    ∧ processExitStatus (clientMainCatch 256) = 255
    ∧ mainEntryCatch 256 = 1 := by
  refine ⟨by decide, by decide, by decide, by decide, by decide⟩

/-- C9 (amended): a fatal resolution or bootstrap error terminates the
process with a non-zero exit status; that status is the error's numeric
code reduced modulo 256 whenever this is non-zero, and the generic failure
code (-1 at `Client::main`, 1 at the process entry point) when the error's
code is zero or a multiple of 256. -/
theorem exit_code_clamping (code : Int) :
    processExitStatus (clientMainCatch code) ≠ 0
    ∧ (code % 256 ≠ 0 → processExitStatus (clientMainCatch code) = (code % 256).toNat)
    ∧ (code % 256 = 0 → clientMainCatch code = -1)
    ∧ processExitStatus (mainEntryCatch code) ≠ 0
    ∧ (code % 256 ≠ 0 → processExitStatus (mainEntryCatch code) = (code % 256).toNat)
    ∧ (code % 256 = 0 → mainEntryCatch code = 1) := by
  have h0 : 0 ≤ code % 256 := Int.emod_nonneg code (by norm_num)
  have h1 : code % 256 < 256 := Int.emod_lt_of_pos code (by norm_num)
  by_cases hm : code % 256 = 0
  · have ht : toUInt8Cast code = 0 := by
      simp [toUInt8Cast, hm]
    refine ⟨?_, ?_, ?_, ?_, ?_, ?_⟩ <;>
      simp [clientMainCatch, mainEntryCatch, processExitStatus, ht, hm]
  · have ht : toUInt8Cast code ≠ 0 := by
      simp only [toUInt8Cast]
      omega
    refine ⟨?_, ?_, ?_, ?_, ?_, ?_⟩ <;>
      simp [clientMainCatch, mainEntryCatch, processExitStatus, ht, hm] <;>
      omega

/-- C9 witness: the real `AUTHENTICATION_FAILED` code 516 exits with
status 4 (516 mod 256), and a zero code falls back to the generic codes. -/
theorem exit_code_clamping_witness :
    processExitStatus (clientMainCatch 516) = 4
    ∧ clientMainCatch 0 = -1
    ∧ mainEntryCatch 0 = 1 := by
  refine ⟨((exit_code_clamping 516).2.1 (by decide)).trans (by decide),
    (exit_code_clamping 0).2.2.1 (by decide),
    (exit_code_clamping 0).2.2.2.2.2 (by decide)⟩

/-- C10: an empty host/port list is replaced, before the failover loop, by
the single candidate whose host is the configured host (defaulting to
localhost) and whose port resolves as: explicit `port` config value, else
`tcp_port_secure`/`tcp_port` according to the inferred security flag, else
the built-in secure or plain default port; the loop therefore always has at
least one candidate. -/
theorem default_host_port_synthesis (config : ClientConfig) (hosts : List HostAndPort) :
    (hosts = [] →
      synthesizeHostsAndPorts config hosts
        = [{ host := config.host.getD "localhost",
             port := some (getPortFromConfig config (config.host.getD "localhost")) }])
    ∧ (hosts ≠ [] → synthesizeHostsAndPorts config hosts = hosts)
    ∧ synthesizeHostsAndPorts config hosts ≠ []
    ∧ (∀ host p, config.port = some p → getPortFromConfig config host = p)
    ∧ (∀ host, config.port = none →
        getPortFromConfig config host
          = if enableSecureConnection config host then
              config.tcpPortSecure.getD DBMS_DEFAULT_SECURE_PORT
            else
              config.tcpPort.getD DBMS_DEFAULT_PORT) := by
  refine ⟨?_, ?_, ?_, ?_, ?_⟩
  · intro he
    simp [synthesizeHostsAndPorts, he]
  · intro hne
    simp [synthesizeHostsAndPorts, hne]
  · cases hosts <;> simp [synthesizeHostsAndPorts]
  · intro host p hp
    simp [getPortFromConfig, hp]
  · intro host hp
    by_cases hs : enableSecureConnection config host <;>
      simp [getPortFromConfig, hp, hs]

/-- C10 witness: with an empty configuration the synthesised candidate is
`localhost` with the plain default port 9000; with `tcp_port_secure` set
and a secure flag the secure config port is used. -/
theorem default_host_port_synthesis_witness :
    synthesizeHostsAndPorts {} [] = [{ host := "localhost", port := some 9000 }]
    ∧ getPortFromConfig { secure := true, tcpPortSecure := some 19440 } "h" = 19440 := by
  refine ⟨((default_host_port_synthesis {} []).1 rfl).trans (by decide), ?_⟩
  exact ((default_host_port_synthesis { secure := true, tcpPortSecure := some 19440 }
    []).2.2.2.2 "h" rfl).trans (by decide)

end ClickHouseClient
